import Mathlib

/-!
Shallow embedding of the backend API client of this repository
(`api_client.py` together with the configuration in `config.py`), and proofs
about its retry, backoff, wrapper-default and batch-fetch behaviour.

Modelling conventions:
* JSON values are the inductive `Json`; Python truthiness of a decoded JSON
  value is `Json.isTruthy` (`None`, `False`, `0`, `""`, `[]`, `{}` are falsy).
* The transport (the network) is a function from the attempt index (0-based,
  as in `for attempt in range(self.max_retries)`) to an `AttemptOutcome`.
* A Python function that may `raise` is embedded with an explicit
  exception alternative (`PyResult.exn` / `WrapResult.exn`) carrying the
  exception's message string.
* `datetime.now()` is an explicit integer parameter (seconds since the
  epoch); `timedelta(hours=h)` is `h * 3600` seconds.
-/

/-- JSON values, as decoded by `response.json()`. -/
inductive Json where
  | null
  | bool (b : Bool)
  | num (n : Int)
  | str (s : String)
  | arr (xs : List Json)
  | obj (fields : List (String × Json))

/-- Python truthiness of a decoded JSON value: `None`, `False`, `0`, `""`,
`[]` and `{}` are falsy, everything else is truthy.  Used to embed the
`_make_request(...) or default` pattern of the wrapper methods. -/
def Json.isTruthy : Json → Bool
  | .null => false
  | .bool b => b
  | .num n => n != 0
  | .str s => s != ""
  | .arr xs => !xs.isEmpty
  | .obj fs => !fs.isEmpty

/-- Configuration fields of `config.py` `Settings` that the client reads
(`BACKEND_API_URL`, `REQUEST_TIMEOUT`, `MAX_RETRIES`).  `Settings` performs
no range validation on these fields: `MAX_RETRIES` is any int. -/
structure Settings where
  BACKEND_API_URL : String
  REQUEST_TIMEOUT : Nat
  MAX_RETRIES : Nat
deriving DecidableEq, Repr

/-- The endpoint catalog `Settings.API_ENDPOINTS` of `config.py`. -/
def API_ENDPOINTS : List (String × String) :=
  [("health", "/health"),
   ("visitors_current", "/api/visitors/current"),
   ("visitors_sections", "/api/visitors/sections"),
   ("cashier_current", "/api/cashier/current"),
   ("cashier_history", "/api/cashier/history"),
   ("cashier_wait_time", "/api/cashier/wait-time"),
   ("heatmap", "/api/heatmap/"),
   ("predictions", "/api/predictions/"),
   ("daily_analytics", "/api/visitors/analytics/daily")]

/-- Path of a catalog key, `settings.API_ENDPOINTS[key]`.  Every key the
client uses is present in `API_ENDPOINTS`, so the default is never hit. -/
def endpointPath (key : String) : String :=
  (API_ENDPOINTS.lookup key).getD ""

/-- The client state built by `BackendAPIClient.__init__`. -/
structure BackendAPIClient where
  base_url : String
  timeout : Nat
  max_retries : Nat
deriving DecidableEq, Repr

/-- Embedding of `BackendAPIClient.__init__`: it copies the three settings
fields and performs no validation whatsoever.  The `Except` codomain gives
the constructor the possibility of raising, which it never exercises —
there is no `ConfigurationError` class anywhere in the repository. -/
def BackendAPIClient.init (s : Settings) : Except String BackendAPIClient :=
  .ok { base_url := s.BACKEND_API_URL
        timeout := s.REQUEST_TIMEOUT
        max_retries := s.MAX_RETRIES }

/-- Headers installed on the lazily created `requests.Session` in the
`session` property: they are sent on every synchronous request. -/
def session_headers : List (String × String) :=
  [("User-Agent", "Retail-Chatbot/1.0"), ("Accept", "application/json")]

/-- A request as built by the client: target URL and the headers the client
itself configures on it. -/
structure HttpRequest where
  url : String
  headers : List (String × String)
deriving DecidableEq, Repr

/-- The request issued by the synchronous path `self.session.get(url, ...)`:
the session carries `session_headers`. -/
def sync_request (c : BackendAPIClient) (endpoint : String) : HttpRequest :=
  { url := c.base_url ++ endpoint, headers := session_headers }

/-- The request issued by `_make_async_request`: `httpx.AsyncClient(timeout=...)`
is constructed with no `headers` argument and `client.get(url, params=params)`
passes none either, so the client configures no headers on this path (only
the httpx library defaults go out, and httpx's default `Accept` is the
wildcard, not `application/json`). -/
def async_request (c : BackendAPIClient) (endpoint : String) : HttpRequest :=
  { url := c.base_url ++ endpoint, headers := [] }

/-- Outcome of one attempt of the transport: the request times out
(`requests.exceptions.Timeout`), fails at the connection level
(`requests.exceptions.RequestException`, message attached), returns a
response whose body is not valid JSON, or returns a response with a status
code and a decoded JSON body. -/
inductive AttemptOutcome where
  | timeout
  | connError (msg : String)
  | badJson (status : Nat)
  | response (status : Nat) (body : Json)

/-- Status codes for which `response.raise_for_status()` raises
`requests.exceptions.HTTPError`: 4xx and 5xx. -/
def isErrorStatus (status : Nat) : Bool :=
  decide (400 ≤ status) && decide (status < 600)

/-- Whether an attempt outcome fails the `try` body of `_make_request`
(timeout, connection error, undecodable body, or a 4xx/5xx status). -/
def AttemptOutcome.fails : AttemptOutcome → Bool
  | .timeout => true
  | .connError _ => true
  | .badJson _ => true
  | .response status _ => isErrorStatus status

/-- The exception classes distinguished by the two `except` clauses of
`_make_request`: `requests.exceptions.Timeout`, and every other
`requests.exceptions.RequestException` (connection errors, `HTTPError`
from `raise_for_status`, and the JSON decode error raised by
`response.json()`), with its `str(e)` message. -/
inductive AttemptExn where
  | timeout
  | requestExn (msg : String)
deriving DecidableEq, Repr

/-- Message text of requests' `HTTPError` as produced by
`raise_for_status()`; abstracted, only its shape matters here. -/
def httpErrorString (status : Nat) : String :=
  toString status ++ " Error"

/-- Message text of the JSON decode error raised by `response.json()`;
abstracted, only its shape matters here. -/
def jsonDecodeString : String :=
  "Expecting value"

/-- The `try` body of one loop iteration of `_make_request`: perform the
request, `raise_for_status()`, then `response.json()`.  Returns the decoded
body or the exception the `except` clauses catch. -/
def runAttempt : AttemptOutcome → Except AttemptExn Json
  | .timeout => .error .timeout
  | .connError msg => .error (.requestExn msg)
  | .badJson status =>
      if isErrorStatus status then .error (.requestExn (httpErrorString status))
      else .error (.requestExn jsonDecodeString)
  | .response status body =>
      if isErrorStatus status then .error (.requestExn (httpErrorString status))
      else .ok body

/-- Result of `_make_request`: a normal return (`None` or a decoded JSON
value, the `Optional[Dict]`) or a raised `Exception` with its message. -/
inductive PyResult where
  | val (v : Option Json)
  | exn (msg : String)

/-- One call of `asyncio.sleep(d)` as it appears in `_make_request`:
`duration` is the argument `1 * (attempt + 1)` and `awaited` records
whether the returned coroutine is awaited.  In the source the call stands
alone inside a synchronous function — the coroutine is created and
immediately discarded, never awaited — so `awaited` is `false` there. -/
structure SleepCall where
  duration : Nat
  awaited : Bool
deriving DecidableEq, Repr

/-- Wall-clock delay a `SleepCall` actually produces: an `asyncio.sleep`
coroutine that is never awaited suspends nothing and no time elapses. -/
def SleepCall.elapsed (s : SleepCall) : Nat :=
  if s.awaited then s.duration else 0

/-- Full observable behaviour of one `_make_request` call: its result, how
many HTTP attempts were performed, and the backoff sleep calls made between
attempts, in order. -/
structure RunResult where
  result : PyResult
  attempts : Nat
  sleepCalls : List SleepCall

/-- The `f"Request to {endpoint} timed out after {max_retries} attempts"`
message of the final-attempt `Timeout` branch. -/
def timeoutMsg (endpoint : String) (max_retries : Nat) : String :=
  "Request to " ++ endpoint ++ " timed out after " ++ toString max_retries
    ++ " attempts"

/-- The `f"Failed to call {endpoint}: {str(e)}"` message of the
final-attempt `RequestException` branch. -/
def failCallMsg (endpoint : String) (cause : String) : String :=
  "Failed to call " ++ endpoint ++ ": " ++ cause

/-- Message attached to the terminal `Exception` raised on the last
attempt, per exception class. -/
def exnMessage (endpoint : String) (max_retries : Nat) : AttemptExn → String
  | .timeout => timeoutMsg endpoint max_retries
  | .requestExn msg => failCallMsg endpoint msg

/-- The retry loop `for attempt in range(self.max_retries): ...` of
`_make_request`, entered at index `attempt` with `fuel` loop iterations
still available (`range(max_retries)` yields exactly `max_retries`
iterations, so the top-level call passes `fuel = max_retries` and the two
counters satisfy `attempt + fuel = max_retries` throughout).  A failing
attempt that is not the last (`attempt == max_retries - 1` is the source's
last-attempt test) calls `asyncio.sleep(1 * (attempt + 1))` without `await`
(the bare statement in the source) and continues; a failing last attempt
raises; a successful attempt returns the decoded body; running out of loop
iterations falls through to `return None`. -/
def make_request_loop (endpoint : String) (transport : Nat → AttemptOutcome)
    (max_retries : Nat) (attempt : Nat) : Nat → RunResult
  | 0 => { result := .val none, attempts := 0, sleepCalls := [] }
  | fuel + 1 =>
    match runAttempt (transport attempt) with
    | .ok body => { result := .val (some body), attempts := 1, sleepCalls := [] }
    | .error e =>
        if attempt = max_retries - 1 then
          { result := .exn (exnMessage endpoint max_retries e)
            attempts := 1
            sleepCalls := [] }
        else
          let rest := make_request_loop endpoint transport max_retries (attempt + 1) fuel
          { result := rest.result
            attempts := rest.attempts + 1
            sleepCalls := { duration := 1 * (attempt + 1), awaited := false }
              :: rest.sleepCalls }

/-- Embedding of `BackendAPIClient._make_request(endpoint, params, method)`:
run the retry loop from attempt 0 with the client's `max_retries` loop
iterations.  `params`/`method` do not influence the retry behaviour and are
abstracted into the transport. -/
def _make_request (c : BackendAPIClient) (endpoint : String)
    (transport : Nat → AttemptOutcome) : RunResult :=
  make_request_loop endpoint transport c.max_retries 0 c.max_retries

/-- The `X or default` pattern of the wrapper methods applied to the value
returned (not raised) by `_make_request`: a falsy value — `None` included —
is replaced by the default. -/
def pyOr (v : Option Json) (dflt : Json) : Json :=
  match v with
  | some j => if j.isTruthy then j else dflt
  | none => dflt

/-- Result of a wrapper method: a JSON value, or a propagated exception. -/
inductive WrapResult where
  | val (j : Json)
  | exn (msg : String)

/-- Shared shape of the `or`-defaulting wrappers: call `_make_request` on a
fixed endpoint and apply `or dflt` to its return value.  There is no
`try`/`except` in these wrappers, so a raised exception propagates. -/
def wrapperCall (c : BackendAPIClient) (endpoint : String) (dflt : Json)
    (transport : Nat → AttemptOutcome) : WrapResult :=
  match (_make_request c endpoint transport).result with
  | .val v => .val (pyOr v dflt)
  | .exn msg => .exn msg

/-- `get_current_visitors`: `self._make_request(...["visitors_current"]) or {}`. -/
def get_current_visitors (c : BackendAPIClient)
    (transport : Nat → AttemptOutcome) : WrapResult :=
  wrapperCall c (endpointPath "visitors_current") (Json.obj []) transport

/-- `get_section_traffic`: `self._make_request(...["visitors_sections"]) or []`. -/
def get_section_traffic (c : BackendAPIClient)
    (transport : Nat → AttemptOutcome) : WrapResult :=
  wrapperCall c (endpointPath "visitors_sections") (Json.arr []) transport

/-- `check_backend_health`: try `_make_request` on the health endpoint and
return its value; on any exception return the unhealthy-status dict with
`str(e)`.  This is the only wrapper with a `try`/`except`, so it never
raises: its result is a plain optional value. -/
def check_backend_health (c : BackendAPIClient)
    (transport : Nat → AttemptOutcome) : Option Json :=
  match (_make_request c (endpointPath "health") transport).result with
  | .val v => v
  | .exn msg =>
      some (Json.obj [("status", Json.str "unhealthy"),
                      ("error", Json.str msg)])

/-- The request parameters computed by `get_visitor_trend(hours)`:
`end_time = datetime.now()`, `start_time = end_time - timedelta(hours=hours)`,
sent to the fixed path `/api/visitors/range`.  Times are in seconds since
the epoch; `isoformat` serialisation is injective and order-preserving, so
the integers stand for the timestamp strings. -/
structure TrendRequest where
  endpoint : String
  start_time : Int
  end_time : Int
deriving DecidableEq, Repr

/-- Embedding of `get_visitor_trend(hours)` up to the point where the
request is issued: the window parameters it passes to `_make_request`. -/
def get_visitor_trend_request (now : Int) (hours : Int) : TrendRequest :=
  { endpoint := "/api/visitors/range"
    start_time := now - hours * 3600
    end_time := now }

/-- Embedding of `_make_async_request`: a single attempt (no retry loop)
whose `except Exception` clause catches every failure and returns `None`;
a 2xx/3xx response with a decodable body returns the decoded JSON. -/
def _make_async_request (outcome : AttemptOutcome) : Option Json :=
  match runAttempt outcome with
  | .ok body => some body
  | .error _ => none

/-- The fixed-shape aggregate returned by `get_multiple_metrics`. -/
structure BatchResult where
  visitors : Option Json
  cashier : Option Json
  heatmap : Option Json

/-- Embedding of `get_multiple_metrics`: gather the three independent
single-attempt async fetches (visitors-current, cashier-current, heatmap)
and place each result in its slot.  The async transport maps an endpoint
path to that fetch's outcome. -/
def get_multiple_metrics (asyncTransport : String → AttemptOutcome) : BatchResult :=
  { visitors := _make_async_request (asyncTransport (endpointPath "visitors_current"))
    cashier := _make_async_request (asyncTransport (endpointPath "cashier_current"))
    heatmap := _make_async_request (asyncTransport (endpointPath "heatmap")) }

/-! ## Concrete instances used to exercise the definitions -/

/-- The sample successful response body
`{"current_visitors": 42, "timestamp": "2024-01-01T00:00:00"}`. -/
def samplePayload : Json :=
  Json.obj [("current_visitors", Json.num 42),
            ("timestamp", Json.str "2024-01-01T00:00:00")]

/-- A client built from the default configuration values
(`http://localhost:8000`, timeout 30, `MAX_RETRIES` 3). -/
def defaultClient : BackendAPIClient :=
  { base_url := "http://localhost:8000", timeout := 30, max_retries := 3 }

/-- A client configured with `max_retries = 1`. -/
def oneRetryClient : BackendAPIClient :=
  { base_url := "http://localhost:8000", timeout := 30, max_retries := 1 }

/-- A client configured with `max_retries = 2`. -/
def twoRetryClient : BackendAPIClient :=
  { base_url := "http://localhost:8000", timeout := 30, max_retries := 2 }

/-- A client configured with `max_retries = 0`. -/
def zeroRetryClient : BackendAPIClient :=
  { base_url := "http://localhost:8000", timeout := 30, max_retries := 0 }

/-- Settings with `MAX_RETRIES = 0` and otherwise default values. -/
def zeroRetrySettings : Settings :=
  { BACKEND_API_URL := "http://localhost:8000"
    REQUEST_TIMEOUT := 30
    MAX_RETRIES := 0 }

/-- A transport on which every attempt times out. -/
def alwaysTimeout : Nat → AttemptOutcome := fun _ => .timeout

/-- A transport failing each attempt a different way: a timeout, then a
connection error, then HTTP 503 responses. -/
def mixedFailTransport : Nat → AttemptOutcome
  | 0 => .timeout
  | 1 => .connError "Connection refused"
  | _ + 2 => .response 503 Json.null

/-- A transport always answering 200 with the sample payload. -/
def payloadTransport : Nat → AttemptOutcome :=
  fun _ => .response 200 samplePayload

/-- An async transport (by endpoint path) on which the heatmap fetch times
out while visitors-current and cashier-current succeed with 200 bodies. -/
def heatmapDownTransport : String → AttemptOutcome := fun endpoint =>
  if endpoint = "/api/heatmap/" then .timeout
  else if endpoint = "/api/visitors/current" then
    .response 200 (Json.obj [("current_visitors", Json.num 42)])
  else .response 200 (Json.obj [("active_cashiers", Json.num 3)])

/-! ## Helper lemmas -/

/-- The terminal timeout message is never the empty string. -/
theorem timeoutMsg_ne_empty (endpoint : String) (n : Nat) :
    timeoutMsg endpoint n ≠ "" := by
  intro h
  have h2 := congrArg String.data h
  simp [timeoutMsg] at h2

/-- The terminal request-failure message is never the empty string. -/
theorem failCallMsg_ne_empty (endpoint cause : String) :
    failCallMsg endpoint cause ≠ "" := by
  intro h
  have h2 := congrArg String.data h
  simp [failCallMsg] at h2

/-- Whatever the exception class, the terminal message is non-empty. -/
theorem exnMessage_ne_empty (endpoint : String) (n : Nat) (e : AttemptExn) :
    exnMessage endpoint n e ≠ "" := by
  cases e with
  | timeout => exact timeoutMsg_ne_empty endpoint n
  | requestExn m => exact failCallMsg_ne_empty endpoint m

/-- A failing attempt outcome makes the try body raise some exception. -/
theorem runAttempt_error_of_fails (o : AttemptOutcome) (h : o.fails = true) :
    ∃ e, runAttempt o = .error e := by
  cases o with
  | timeout => exact ⟨.timeout, rfl⟩
  | connError m => exact ⟨.requestExn m, rfl⟩
  | badJson s =>
      by_cases hs : isErrorStatus s = true
      · exact ⟨.requestExn (httpErrorString s), by simp [runAttempt, hs]⟩
      · exact ⟨.requestExn jsonDecodeString, by simp [runAttempt, hs]⟩
  | response s b =>
      have hs : isErrorStatus s = true := h
      exact ⟨.requestExn (httpErrorString s), by simp [runAttempt, hs]⟩

/-- Exhaustion behaviour of the retry loop: entered with at least one
iteration left and the invariant `attempt + fuel = max_retries`, against a
transport failing every attempt, it performs exactly `fuel` attempts and
raises a terminal exception with a non-empty message. -/
theorem make_request_loop_exhausts (endpoint : String)
    (transport : Nat → AttemptOutcome)
    (hfail : ∀ i, (transport i).fails = true) :
    ∀ (fuel attempt max_retries : Nat), 1 ≤ fuel →
      attempt + fuel = max_retries →
      (make_request_loop endpoint transport max_retries attempt fuel).attempts = fuel ∧
      ∃ msg,
        (make_request_loop endpoint transport max_retries attempt fuel).result
          = PyResult.exn msg ∧ msg ≠ "" := by
  intro fuel
  induction fuel with
  | zero => intro attempt max_retries h1 _; omega
  | succ f ih =>
    intro attempt max_retries _ hinv
    obtain ⟨e, he⟩ := runAttempt_error_of_fails (transport attempt) (hfail attempt)
    rcases Nat.eq_zero_or_pos f with hf0 | hfpos
    · subst hf0
      have hlast : attempt = max_retries - 1 := by omega
      refine ⟨?_, exnMessage endpoint max_retries e, ?_, exnMessage_ne_empty _ _ _⟩
      · show (make_request_loop endpoint transport max_retries attempt 1).attempts = 1
        simp only [make_request_loop, he]
        rw [if_pos hlast]
      · show (make_request_loop endpoint transport max_retries attempt 1).result = _
        simp only [make_request_loop, he]
        rw [if_pos hlast]
    · have hnotlast : ¬ attempt = max_retries - 1 := by omega
      have hinv2 : (attempt + 1) + f = max_retries := by omega
      obtain ⟨hatt, msg, hres, hne⟩ := ih (attempt + 1) max_retries (by omega) hinv2
      constructor
      · show (make_request_loop endpoint transport max_retries attempt (f + 1)).attempts = f + 1
        simp only [make_request_loop, he, if_neg hnotlast]
        omega
      · refine ⟨msg, ?_, hne⟩
        show (make_request_loop endpoint transport max_retries attempt (f + 1)).result = _
        simp only [make_request_loop, he, if_neg hnotlast]
        exact hres

/-- Exhaustion behaviour of `_make_request` itself: with `max_retries ≥ 1`
and an always-failing transport it performs exactly `max_retries` attempts
and raises a terminal exception with a non-empty message. -/
theorem make_request_exhausts (c : BackendAPIClient) (endpoint : String)
    (transport : Nat → AttemptOutcome) (hN : 1 ≤ c.max_retries)
    (hfail : ∀ i, (transport i).fails = true) :
    (_make_request c endpoint transport).attempts = c.max_retries ∧
    ∃ msg, (_make_request c endpoint transport).result = PyResult.exn msg ∧ msg ≠ "" := by
  have h := make_request_loop_exhausts endpoint transport hfail c.max_retries 0
    c.max_retries hN (by omega)
  exact h

/-- An `or`-defaulting wrapper propagates the terminal exception when the
transport fails every attempt and at least one attempt is made. -/
theorem wrapperCall_exn_of_fail (c : BackendAPIClient) (endpoint : String)
    (dflt : Json) (transport : Nat → AttemptOutcome) (hN : 1 ≤ c.max_retries)
    (hfail : ∀ i, (transport i).fails = true) :
    ∃ msg, wrapperCall c endpoint dflt transport = WrapResult.exn msg ∧ msg ≠ "" := by
  obtain ⟨_, msg, hres, hne⟩ := make_request_exhausts c endpoint transport hN hfail
  exact ⟨msg, by simp [wrapperCall, hres], hne⟩

/-- A failing outcome makes the single-attempt async request return `None`. -/
theorem make_async_request_none_of_fails (o : AttemptOutcome)
    (h : o.fails = true) : _make_async_request o = none := by
  obtain ⟨e, he⟩ := runAttempt_error_of_fails o h
  simp [_make_async_request, he]

/-- A 2xx response with a decoded body makes the single-attempt async
request return that body. -/
theorem make_async_request_ok (status : Nat) (body : Json)
    (hlo : 200 ≤ status) (hhi : status < 300) :
    _make_async_request (.response status body) = some body := by
  have hs : isErrorStatus status = false := by
    simp [isErrorStatus]
    omega
  simp [_make_async_request, runAttempt, hs]

/-- Every attempt of the mixed failing transport fails (timeout,
connection error, and HTTP 503 are all retried failures). -/
theorem mixedFailTransport_fails : ∀ i, (mixedFailTransport i).fails = true := by
  intro i
  match i with
  | 0 => rfl
  | 1 => rfl
  | n + 2 => rfl

/-! ## Claim theorems -/

/-- C1: for every `max_retries = N ≥ 1`, a `_make_request` call whose every
attempt fails (by timeout, by connection error, or by a 4xx/5xx response)
performs exactly `N` attempts and then raises a terminal exception. -/
theorem make_request_exhausts_all_attempts (c : BackendAPIClient)
    (endpoint : String) (transport : Nat → AttemptOutcome)
    (hN : 1 ≤ c.max_retries) (hfail : ∀ i, (transport i).fails = true) :
    (_make_request c endpoint transport).attempts = c.max_retries ∧
    ∃ msg, (_make_request c endpoint transport).result = PyResult.exn msg := by
  obtain ⟨hatt, msg, hres, _⟩ := make_request_exhausts c endpoint transport hN hfail
  exact ⟨hatt, msg, hres⟩

/-- Witness for C1: the default client (3 retries) against the mixed
failing transport makes exactly 3 attempts and raises. -/
theorem make_request_exhausts_all_attempts_witness :
    1 ≤ defaultClient.max_retries ∧
    ((_make_request defaultClient "/api/visitors/current" mixedFailTransport).attempts
        = defaultClient.max_retries ∧
     ∃ msg, (_make_request defaultClient "/api/visitors/current" mixedFailTransport).result
        = PyResult.exn msg) :=
  ⟨by decide,
   make_request_exhausts_all_attempts defaultClient "/api/visitors/current"
     mixedFailTransport (by decide) mixedFailTransport_fails⟩

/-- C2 counterexample: with `max_retries = 1` and an always-timing-out
transport, `get_current_visitors` and `get_section_traffic` do not return
their empty defaults — the terminal exception propagates out of them. -/
theorem wrappers_raise_on_exhaustion_cex :
    get_current_visitors oneRetryClient alwaysTimeout
      = WrapResult.exn (timeoutMsg "/api/visitors/current" 1) ∧
    get_section_traffic oneRetryClient alwaysTimeout
      = WrapResult.exn (timeoutMsg "/api/visitors/sections" 1) :=
  ⟨rfl, rfl⟩

/-- C2 (amended): when the transport fails every attempt and
`max_retries ≥ 1`, the `or`-defaulting wrappers do not downgrade the
failure — the terminal exception of `_make_request` propagates through
them (only `check_backend_health` catches it); their empty defaults are
returned only when `_make_request` returns a falsy value without raising. -/
theorem wrappers_propagate_terminal_exception (c : BackendAPIClient)
    (transport : Nat → AttemptOutcome) (hN : 1 ≤ c.max_retries)
    (hfail : ∀ i, (transport i).fails = true) :
    (∃ msg, get_current_visitors c transport = WrapResult.exn msg) ∧
    (∃ msg, get_section_traffic c transport = WrapResult.exn msg) := by
  obtain ⟨m1, h1, _⟩ := wrapperCall_exn_of_fail c (endpointPath "visitors_current")
    (Json.obj []) transport hN hfail
  obtain ⟨m2, h2, _⟩ := wrapperCall_exn_of_fail c (endpointPath "visitors_sections")
    (Json.arr []) transport hN hfail
  exact ⟨⟨m1, h1⟩, ⟨m2, h2⟩⟩

/-- Witness for the amended C2 at a concrete client and transport. -/
theorem wrappers_propagate_terminal_exception_witness :
    1 ≤ oneRetryClient.max_retries ∧
    ((∃ msg, get_current_visitors oneRetryClient alwaysTimeout = WrapResult.exn msg) ∧
     (∃ msg, get_section_traffic oneRetryClient alwaysTimeout = WrapResult.exn msg)) :=
  ⟨by decide,
   wrappers_propagate_terminal_exception oneRetryClient alwaysTimeout (by decide)
     (fun _ => rfl)⟩

/-- C3 (the code at the failing input): with `max_retries = 2` and both
attempts timing out, the loop passes the linear-backoff duration
`1 * (0 + 1) = 1` to `asyncio.sleep` between the two attempts, but the bare
call inside the synchronous function is never awaited, so the delay that
actually elapses before attempt 2 is 0 seconds — no backoff sleep elapses,
contrary to the claim (and to the `# Exponential backoff` comment). -/
theorem backoff_sleep_never_elapses :
    (_make_request twoRetryClient "/api/visitors/current" alwaysTimeout).attempts = 2 ∧
    ((_make_request twoRetryClient "/api/visitors/current" alwaysTimeout).sleepCalls.map
        SleepCall.duration = [1]) ∧
    ((_make_request twoRetryClient "/api/visitors/current" alwaysTimeout).sleepCalls.map
        SleepCall.elapsed = [0]) :=
  ⟨rfl, rfl, rfl⟩

/-- C4: in `get_multiple_metrics`, if the heatmap fetch fails while the
visitors-current and cashier-current fetches succeed with 2xx bodies, the
returned batch carries the two decoded bodies in their slots and `None`
only in the heatmap slot — the failure affects neither other slot. -/
theorem get_multiple_metrics_isolates_heatmap_failure
    (t : String → AttemptOutcome) (sV sC : Nat) (bV bC : Json)
    (hV : t (endpointPath "visitors_current") = .response sV bV)
    (hVlo : 200 ≤ sV) (hVhi : sV < 300)
    (hC : t (endpointPath "cashier_current") = .response sC bC)
    (hClo : 200 ≤ sC) (hChi : sC < 300)
    (hH : (t (endpointPath "heatmap")).fails = true) :
    get_multiple_metrics t
      = { visitors := some bV, cashier := some bC, heatmap := none } := by
  unfold get_multiple_metrics
  rw [hV, hC, make_async_request_ok sV bV hVlo hVhi,
    make_async_request_ok sC bC hClo hChi,
    make_async_request_none_of_fails _ hH]

/-- Witness for C4: heatmap down, the other two endpoints healthy. -/
theorem get_multiple_metrics_isolates_heatmap_failure_witness :
    (heatmapDownTransport (endpointPath "heatmap")).fails = true ∧
    get_multiple_metrics heatmapDownTransport
      = { visitors := some (Json.obj [("current_visitors", Json.num 42)])
          cashier := some (Json.obj [("active_cashiers", Json.num 3)])
          heatmap := none } :=
  ⟨rfl,
   get_multiple_metrics_isolates_heatmap_failure heatmapDownTransport 200 200
     (Json.obj [("current_visitors", Json.num 42)])
     (Json.obj [("active_cashiers", Json.num 3)])
     rfl (by decide) (by decide) rfl (by decide) (by decide) rfl⟩

/-- C5: when every attempt fails and `max_retries ≥ 1`,
`check_backend_health` swallows the terminal exception and returns the
dictionary `{"status": "unhealthy", "error": e}` with `e` a non-empty
string, raising nothing. -/
theorem check_backend_health_reports_unhealthy (c : BackendAPIClient)
    (transport : Nat → AttemptOutcome) (hN : 1 ≤ c.max_retries)
    (hfail : ∀ i, (transport i).fails = true) :
    ∃ e, check_backend_health c transport
        = some (Json.obj [("status", Json.str "unhealthy"),
                          ("error", Json.str e)]) ∧ e ≠ "" := by
  obtain ⟨_, msg, hres, hne⟩ := make_request_exhausts c (endpointPath "health")
    transport hN hfail
  exact ⟨msg, by simp [check_backend_health, hres], hne⟩

/-- Witness for C5 at a concrete client and transport. -/
theorem check_backend_health_reports_unhealthy_witness :
    1 ≤ oneRetryClient.max_retries ∧
    ∃ e, check_backend_health oneRetryClient alwaysTimeout
        = some (Json.obj [("status", Json.str "unhealthy"),
                          ("error", Json.str e)]) ∧ e ≠ "" :=
  ⟨by decide,
   check_backend_health_reports_unhealthy oneRetryClient alwaysTimeout (by decide)
     (fun _ => rfl)⟩

/-- C6 counterexample: constructing a client from settings with
`MAX_RETRIES = 0` raises nothing — the client with `max_retries = 0` is
successfully constructed, refuting the claimed `ConfigurationError`. -/
theorem init_accepts_zero_max_retries_cex :
    BackendAPIClient.init zeroRetrySettings = Except.ok zeroRetryClient :=
  rfl

/-- C6 (amended): `__init__` performs no configuration validation at all:
for every settings value it succeeds, returning a client that copies the
three fields verbatim; the repository defines no `ConfigurationError`. -/
theorem init_performs_no_validation (s : Settings) :
    BackendAPIClient.init s
      = Except.ok { base_url := s.BACKEND_API_URL
                    timeout := s.REQUEST_TIMEOUT
                    max_retries := s.MAX_RETRIES } :=
  rfl

/-- C7: a fetch whose first attempt returns a 2xx response decoding to the
sample body is returned by `get_current_visitors` exactly as decoded — the
client applies no lossy transformation to the successful payload. -/
theorem get_current_visitors_returns_payload_unmodified (c : BackendAPIClient)
    (transport : Nat → AttemptOutcome) (status : Nat) (hN : 1 ≤ c.max_retries)
    (hlo : 200 ≤ status) (hhi : status < 300)
    (hresp : transport 0 = .response status samplePayload) :
    get_current_visitors c transport = WrapResult.val samplePayload := by
  obtain ⟨f, hf⟩ : ∃ f, c.max_retries = f + 1 := ⟨c.max_retries - 1, by omega⟩
  have hs : isErrorStatus status = false := by
    simp [isErrorStatus]
    omega
  unfold get_current_visitors wrapperCall _make_request
  rw [hf]
  simp [make_request_loop, hresp, runAttempt, hs, pyOr, samplePayload, Json.isTruthy]

/-- Witness for C7: default client, transport answering 200 with the
sample payload. -/
theorem get_current_visitors_returns_payload_unmodified_witness :
    1 ≤ defaultClient.max_retries ∧ 200 ≤ 200 ∧ 200 < 300 ∧
    get_current_visitors defaultClient payloadTransport
      = WrapResult.val samplePayload :=
  ⟨by decide, by decide, by decide,
   get_current_visitors_returns_payload_unmodified defaultClient payloadTransport 200
     (by decide) (by decide) (by decide) rfl⟩

/-- C8: for every positive `hours`, `get_visitor_trend` issues its request
on `/api/visitors/range` with `end_time` the current time and `start_time`
exactly `hours` hours (3600·hours seconds) earlier, so
`start_time < end_time`. -/
theorem get_visitor_trend_window_correct (now hours : Int) (hpos : 0 < hours) :
    (get_visitor_trend_request now hours).endpoint = "/api/visitors/range" ∧
    (get_visitor_trend_request now hours).end_time = now ∧
    (get_visitor_trend_request now hours).end_time
        - (get_visitor_trend_request now hours).start_time = hours * 3600 ∧
    (get_visitor_trend_request now hours).start_time
        < (get_visitor_trend_request now hours).end_time := by
  refine ⟨rfl, rfl, ?_, ?_⟩
  · simp [get_visitor_trend_request]
  · simp [get_visitor_trend_request]
    omega

/-- Witness for C8 at the default `hours = 6` and a concrete clock value. -/
theorem get_visitor_trend_window_correct_witness :
    (0 : Int) < 6 ∧
    ((get_visitor_trend_request 1704067200 6).endpoint = "/api/visitors/range" ∧
     (get_visitor_trend_request 1704067200 6).end_time = 1704067200 ∧
     (get_visitor_trend_request 1704067200 6).end_time
        - (get_visitor_trend_request 1704067200 6).start_time = 6 * 3600 ∧
     (get_visitor_trend_request 1704067200 6).start_time
        < (get_visitor_trend_request 1704067200 6).end_time) :=
  ⟨by decide, get_visitor_trend_window_correct 1704067200 6 (by decide)⟩

/-- C9 counterexample: the heatmap fetch of the async batch path carries no
`Accept: application/json` header — `_make_async_request` configures no
headers at all, unlike the synchronous session. -/
theorem async_request_lacks_accept_json_cex :
    ("Accept", "application/json")
      ∉ (async_request defaultClient (endpointPath "heatmap")).headers := by
  simp [async_request]

/-- C9 (amended): every synchronous session request carries the
`User-Agent` and `Accept: application/json` headers, but the async batch
requests carry no client-configured headers at all. -/
theorem request_headers_sync_path_only (c : BackendAPIClient) (endpoint : String) :
    ("User-Agent", "Retail-Chatbot/1.0") ∈ (sync_request c endpoint).headers ∧
    ("Accept", "application/json") ∈ (sync_request c endpoint).headers ∧
    (async_request c endpoint).headers = [] := by
  refine ⟨?_, ?_, rfl⟩ <;> simp [sync_request, session_headers]

/-- C10: with `max_retries = 0` the retry loop body never runs:
`_make_request` makes zero attempts and returns `None` without raising, so
`get_current_visitors` returns `{}`, `get_section_traffic` returns `[]`,
and `check_backend_health` returns `None` rather than a status object. -/
theorem zero_max_retries_short_circuits (c : BackendAPIClient)
    (endpoint : String) (transport : Nat → AttemptOutcome)
    (h0 : c.max_retries = 0) :
    (_make_request c endpoint transport).attempts = 0 ∧
    (_make_request c endpoint transport).result = PyResult.val none ∧
    get_current_visitors c transport = WrapResult.val (Json.obj []) ∧
    get_section_traffic c transport = WrapResult.val (Json.arr []) ∧
    check_backend_health c transport = none := by
  refine ⟨?_, ?_, ?_, ?_, ?_⟩ <;>
    simp [_make_request, get_current_visitors, get_section_traffic,
      check_backend_health, wrapperCall, h0, make_request_loop, pyOr]

/-- Witness for C10: a zero-retry client against a transport that would
time out if it were ever consulted. -/
theorem zero_max_retries_short_circuits_witness :
    zeroRetryClient.max_retries = 0 ∧
    ((_make_request zeroRetryClient "/health" alwaysTimeout).attempts = 0 ∧
     (_make_request zeroRetryClient "/health" alwaysTimeout).result = PyResult.val none ∧
     get_current_visitors zeroRetryClient alwaysTimeout = WrapResult.val (Json.obj []) ∧
     get_section_traffic zeroRetryClient alwaysTimeout = WrapResult.val (Json.arr []) ∧
     check_backend_health zeroRetryClient alwaysTimeout = none) :=
  ⟨rfl, zero_max_retries_short_circuits zeroRetryClient "/health" alwaysTimeout rfl⟩
